/-
Verification of the stellar-raise-contracts presentation-formatting
utilities: the currency formatter (stroops <-> XLM conversion and
fixed/compact/percentage rendering) and the date formatter (absolute,
full and relative timestamp rendering, expiry detection).

The date formatter is embedded from frontend/utils/dateFormatter.js.
The currency formatter implementation file is not part of the staged
sources (only its unit tests are), so its operations are modelled from
the specification's description of them; the unit tests' expected
values are proved against that model.

Conventions of the embedding:
  * JS `null`/`undefined` inputs are `Option.none`; a numeric input is
    `some n`.
  * Monetary amounts are exact rationals (ℚ).  The specification notes
    that the display layer stays within the range where the host's
    floating point is exact for 7-decimal values, so exact rational
    arithmetic is the intended semantics of the spec-level description.
  * `Number.prototype.toFixed(d)` is modelled as round-half-up to `d`
    decimal digits (its behaviour on the non-negative values reached
    here), and `toLocaleString` grouping as comma groups of three.
  * Unix timestamps are integers (seconds); the ambient wall clock read
    (`Date.now()/1000`) is an explicit `now : Int` parameter, as the
    specification's design notes direct for reimplementations.
-/
import Mathlib

namespace StellarRaise

/-! ## Decimal string rendering helpers -/

/-- Left-pad a string with `'0'` up to width `k`. -/
def padZeros (k : Nat) (s : String) : String :=
  if s.length < k then String.mk (List.replicate (k - s.length) '0') ++ s else s

/-- Fuel-driven worker for `groupDigits`: split a natural number's decimal
digits into comma-separated groups of three, from the right. -/
def groupGo : Nat → Nat → String
  | 0, n => toString n
  | fuel + 1, n =>
      if n < 1000 then toString n
      else groupGo fuel (n / 1000) ++ "," ++ padZeros 3 (toString (n % 1000))

/-- Decimal rendering of a natural number with thousands separators,
e.g. `1250 ↦ "1,250"`; models the integer-part grouping of the host's
`toLocaleString`. -/
def groupDigits (n : Nat) : String := groupGo n n

/-- Round a rational half-up to an integer: the value JS
`Number.prototype.toFixed` keeps for the non-negative arguments used
here (ties round away from zero, i.e. up). -/
def roundHalfUp (q : ℚ) : Int := ⌊q + 1 / 2⌋

/-- Render a scaled non-negative integer `n` (a count of `10^(-d)`
units) as a decimal string with exactly `d` fractional digits; the
integer part is comma-grouped when `grouped` is `true`. -/
def renderScaled (grouped : Bool) (d : Nat) (n : Nat) : String :=
  let ipStr := if grouped then groupDigits (n / 10 ^ d) else toString (n / 10 ^ d)
  if d = 0 then ipStr else ipStr ++ "." ++ padZeros d (toString (n % 10 ^ d))

/-- Model of JS `Number.prototype.toFixed d` on non-negative rationals:
round half-up at `d` decimals and render with exactly `d` fractional
digits, no grouping. -/
def jsToFixed (d : Nat) (q : ℚ) : String :=
  renderScaled false d (roundHalfUp (q * 10 ^ d)).toNat

/-- Model of JS `toLocaleString` with `minimumFractionDigits =
maximumFractionDigits = d`: like `jsToFixed` but with thousands
separators in the integer part. -/
def jsToLocaleFixed (d : Nat) (q : ℚ) : String :=
  renderScaled true d (roundHalfUp (q * 10 ^ d)).toNat

/-! ## AmountFormatter (currency formatter)

The implementation file of these five operations is not among the
staged sources — only its unit-test file is — so each is modelled from
the specification. -/

/-- Stroops per XLM: the fixed 7-decimal scale of the smallest unit. -/
def SCALE : ℚ := 10 ^ 7

/-- Modelled from the spec: `stroopsToXLM` (`toMajorUnits`) of the
missing `currencyFormatter.js` divides the smallest-unit amount by
`10^7`; `null`/`undefined` input yields `0`. -/
def stroopsToXLM (stroops : Option Int) : ℚ :=
  match stroops with
  | none => 0
  | some s => (s : ℚ) / SCALE

/-- Modelled from the spec: `xlmToStroops` (`toSmallestUnits`) of the
missing `currencyFormatter.js` multiplies a major-unit amount by
`10^7`, the inverse of `stroopsToXLM`; `null`/`undefined` yields `0`. -/
def xlmToStroops (xlm : Option ℚ) : ℚ :=
  match xlm with
  | none => 0
  | some x => x * SCALE

/-- Modelled from the spec: `formatCurrency(amount, decimals = 2,
symbol = "XLM")` of the missing `currencyFormatter.js` converts to
major units and renders with exactly `decimals` fractional digits and
thousands separators, then a space and the symbol; a `null`/`undefined`
amount yields `"0.00 <symbol>"` with the default two decimals. -/
def formatCurrency (amount : Option Int) (decimals : Nat := 2)
    (symbol : String := "XLM") : String :=
  match amount with
  | none => "0.00 " ++ symbol
  | some a => jsToLocaleFixed decimals (stroopsToXLM (some a)) ++ " " ++ symbol

/-- Modelled from the spec: `formatCompact(amount)` of the missing
`currencyFormatter.js` converts to major units; at ≥ 1,000,000 it
renders `value/1e6` at 2 decimals with an `M` suffix, at ≥ 1,000 it
renders `value/1e3` at 2 decimals with a `K` suffix, otherwise it
delegates to `formatCurrency` with 2 decimals; `null`/`undefined`
yields `"0 <symbol>"` with no decimal places. -/
def formatCompact (amount : Option Int) (symbol : String := "XLM") : String :=
  match amount with
  | none => "0 " ++ symbol
  | some a =>
      let v := stroopsToXLM (some a)
      if 1000000 ≤ v then jsToFixed 2 (v / 1000000) ++ "M " ++ symbol
      else if 1000 ≤ v then jsToFixed 2 (v / 1000) ++ "K " ++ symbol
      else formatCurrency (some a) 2 symbol

/-- Modelled from the spec: `formatProgress(raised, goal)` of the
missing `currencyFormatter.js` returns `"0.00%"` when the goal is zero,
`null` or `undefined` or when the raised amount is zero (never
dividing by zero); otherwise it divides the two major-unit values,
clamps the ratio to `[0, 1]`, multiplies by 100 and renders at exactly
2 decimals followed by `%`. -/
def formatProgress (raised goal : Option Int) : String :=
  match raised, goal with
  | some r, some g =>
      if r = 0 ∨ g = 0 then "0.00%"
      else jsToFixed 2 (max 0 (min (stroopsToXLM (some r) / stroopsToXLM (some g)) 1) * 100) ++ "%"
  | _, _ => "0.00%"

/-! ## Currency formatter lemmas -/

/-- The major-unit ratio of two smallest-unit amounts is the raw ratio:
the `10^7` scale cancels. -/
lemma ratio_eq (r g : Int) :
    stroopsToXLM (some r) / stroopsToXLM (some g) = (r : ℚ) / (g : ℚ) := by
  simp only [stroopsToXLM, SCALE]
  rcases eq_or_ne (g : ℚ) 0 with h0 | h0
  · simp [h0]
  · field_simp

lemma jsToFixed_zero : jsToFixed 2 0 = "0.00" := by
  have h : roundHalfUp ((0 : ℚ) * 10 ^ 2) = 0 := by unfold roundHalfUp; norm_num
  simp only [jsToFixed]
  rw [h]
  decide

lemma jsToFixed_hundred : jsToFixed 2 100 = "100.00" := by
  have h : roundHalfUp ((100 : ℚ) * 10 ^ 2) = 10000 := by unfold roundHalfUp; norm_num
  simp only [jsToFixed]
  rw [h]
  decide

/-! ## TemporalFormatter (date formatter)

Embedded from `frontend/utils/dateFormatter.js`.  The ambient clock
read `Math.floor(Date.now() / 1000)` is an explicit `now` parameter;
timestamps are `Option Int` (`none` for `null`/`undefined`). -/

/-- Gregorian civil date `(year, month, day)` from a count of days
since 1970-01-01; the standard era-based conversion.  Models the
calendar arithmetic of the host's `Date` object (UTC). -/
def civilFromDays (z : Int) : Int × Int × Int :=
  let zs := z + 719468
  let era := zs.ediv 146097
  let doe := zs.emod 146097
  let yoe := (doe - doe.ediv 1460 + doe.ediv 36524 - doe.ediv 146096).ediv 365
  let y := yoe + era * 400
  let doy := doe - (365 * yoe + yoe.ediv 4 - yoe.ediv 100)
  let mp := (5 * doy + 2).ediv 153
  let d := doy - (153 * mp + 2).ediv 5 + 1
  let m := mp + (if mp < 10 then 3 else -9)
  (y + (if m ≤ 2 then 1 else 0), m, d)

/-- `en-US` short month name for a 1-based month number. -/
def monthName (m : Int) : String :=
  if m = 1 then "Jan" else if m = 2 then "Feb" else if m = 3 then "Mar"
  else if m = 4 then "Apr" else if m = 5 then "May" else if m = 6 then "Jun"
  else if m = 7 then "Jul" else if m = 8 then "Aug" else if m = 9 then "Sep"
  else if m = 10 then "Oct" else if m = 11 then "Nov" else "Dec"

/-- Two-digit zero-padded rendering of a minute value. -/
def pad2 (n : Int) : String :=
  if n < 10 then "0" ++ toString n else toString n

/-- Model of the host `toLocaleDateString("en-US", {year, month: short,
day})` primitive applied to a Unix timestamp in seconds (UTC):
`"Feb 22, 2026"`. -/
def renderDate (t : Int) : String :=
  let c := civilFromDays (t.ediv 86400)
  monthName c.2.1 ++ " " ++ toString c.2.2 ++ ", " ++ toString c.1

/-- Model of the hour-and-minute part of the host
`toLocaleString("en-US", …)` primitive: 12-hour clock with a
two-digit minute and AM/PM marker, e.g. `"10:30 AM"` (UTC). -/
def renderTime (t : Int) : String :=
  let sod := t.emod 86400
  let hour := sod.ediv 3600
  let minute := (sod.emod 3600).ediv 60
  let h12 := if hour.emod 12 = 0 then 12 else hour.emod 12
  toString h12 ++ ":" ++ pad2 minute ++ " " ++ (if hour < 12 then "AM" else "PM")

/-- `formatDate` of `dateFormatter.js`: the guard
`if (!timestamp && timestamp !== 0) return "—"` returns the
placeholder exactly for `null`/`undefined` (numeric zero is special-
cased to render); otherwise the timestamp is rendered as a locale
date.  Over the numeric-or-null input domain the guard fires exactly
on `none`. -/
def formatDate (timestamp : Option Int) (locale : String := "en-US") : String :=
  match timestamp with
  | none => "—"
  | some t => renderDate t

/-- `formatDateTime` of `dateFormatter.js`: same guard as
`formatDate`, rendering date plus hour:minute. -/
def formatDateTime (timestamp : Option Int) (locale : String := "en-US") : String :=
  match timestamp with
  | none => "—"
  | some t => renderDate t ++ ", " ++ renderTime t

/-- `formatRelativeTime` of `dateFormatter.js`: the guard
`if (!timestamp) return "—"` treats `null`/`undefined` and the literal
`0` as missing; otherwise `diff = timestamp - now`, with
minutes/hours/days each `Math.floor` of `|diff|` over 60/3600/86400,
rendered as a days-hours-minutes cascade with `left` (future) or
`Ended … ago` (past or now) wording and an `s` appended when the
count differs from 1. -/
def formatRelativeTime (now : Int) (timestamp : Option Int) : String :=
  match timestamp with
  | none => "—"
  | some t =>
      if t = 0 then "—"
      else
        let diff := t - now
        let absDiff := diff.natAbs
        let minutes := absDiff / 60
        let hours := absDiff / 3600
        let days := absDiff / 86400
        if 0 < diff then
          if 0 < days then toString days ++ " day" ++ (if days ≠ 1 then "s" else "") ++ " left"
          else if 0 < hours then toString hours ++ " hour" ++ (if hours ≠ 1 then "s" else "") ++ " left"
          else toString minutes ++ " minute" ++ (if minutes ≠ 1 then "s" else "") ++ " left"
        else
          if 0 < days then "Ended " ++ toString days ++ " day" ++ (if days ≠ 1 then "s" else "") ++ " ago"
          else if 0 < hours then "Ended " ++ toString hours ++ " hour" ++ (if hours ≠ 1 then "s" else "") ++ " ago"
          else "Ended " ++ toString minutes ++ " minute" ++ (if minutes ≠ 1 then "s" else "") ++ " ago"

/-- `isExpired` of `dateFormatter.js`: `false` on a falsy timestamp
(`null`/`undefined`/`0`), otherwise whether the current time strictly
exceeds the timestamp. -/
def isExpired (now : Int) (timestamp : Option Int) : Bool :=
  match timestamp with
  | none => false
  | some t => if t = 0 then false else decide (t < now)

/-- The claim-side description of the relative-time cascade, written
from the specification's words: select the largest applicable unit
among days, hours, minutes (days first, then hours, then minutes —
minutes even when zero), render `"<N> <unit>(s) left"` for a future
difference and `"Ended <N> <unit>(s) ago"` otherwise, pluralizing
exactly when the count differs from 1. -/
def claimRelativeTime (now t : Int) : String :=
  let diff := t - now
  let absDiff := diff.natAbs
  let days := absDiff / 86400
  let hours := absDiff / 3600
  let minutes := absDiff / 60
  let p := if 0 < days then (days, " day") else if 0 < hours then (hours, " hour") else (minutes, " minute")
  let plural := if p.1 ≠ 1 then "s" else ""
  if 0 < diff then toString p.1 ++ p.2 ++ plural ++ " left"
  else "Ended " ++ toString p.1 ++ p.2 ++ plural ++ " ago"

/-- A locale date render is at least 3 characters long (month name plus
the two separators), so it can never equal the 1-character placeholder. -/
lemma three_le_length_renderDate (t : Int) : 3 ≤ (renderDate t).length := by
  simp only [renderDate]
  simp only [String.length_append]
  have h1 : (" " : String).length = 1 := rfl
  have h2 : (", " : String).length = 2 := rfl
  omega

/-! ## Theorems for the claims -/

/-- Claim C1: for every raised amount and positive goal,
`formatProgress` renders the ratio of raised to goal clamped to
`[0, 1]`, times 100, at exactly two decimals with a `%` suffix; in
particular whenever `raised ≥ goal` the clamp fires and the result is
exactly `"100.00%"`. -/
theorem formatProgress_clamped_percentage (r g : Int) (hg : 0 < g) :
    formatProgress (some r) (some g)
      = jsToFixed 2 (max 0 (min ((r : ℚ) / (g : ℚ)) 1) * 100) ++ "%"
    ∧ (g ≤ r → formatProgress (some r) (some g) = "100.00%") := by
  have hgQ : (0 : ℚ) < (g : ℚ) := by exact_mod_cast hg
  have hbranch : formatProgress (some r) (some g)
      = jsToFixed 2 (max 0 (min ((r : ℚ) / (g : ℚ)) 1) * 100) ++ "%" := by
    by_cases hr : r = 0
    · subst hr
      simp only [formatProgress]
      rw [if_pos (Or.inl trivial)]
      have e : max (0 : ℚ) (min (((0 : Int) : ℚ) / (g : ℚ)) 1) * 100 = 0 := by
        rw [Int.cast_zero, zero_div, min_eq_left zero_le_one, max_self, zero_mul]
      rw [e, jsToFixed_zero]
      rfl
    · simp only [formatProgress]
      rw [if_neg (by simp [hr, ne_of_gt hg]), ratio_eq r g]
  refine ⟨hbranch, fun hge => ?_⟩
  rw [hbranch]
  have h1 : (1 : ℚ) ≤ (r : ℚ) / (g : ℚ) := by
    rw [one_le_div hgQ]
    exact_mod_cast hge
  rw [min_eq_right h1, max_eq_right (by norm_num : (0:ℚ) ≤ 1), one_mul, jsToFixed_hundred]
  rfl

/-- Witness for C1: a raised amount that exceeds the goal is clamped to
exactly `"100.00%"`. -/
theorem formatProgress_clamped_percentage_witness :
    formatProgress (some 20000000) (some 10000000) = "100.00%" :=
  (formatProgress_clamped_percentage 20000000 10000000 (by norm_num)).2 (by norm_num)

/-- Claim C2: `formatProgress` returns `"0.00%"` whenever the goal is
zero, `null` or `undefined`, and also whenever the raised amount is
zero or missing, for every value of the other argument — so no
division by zero is ever reached. -/
theorem formatProgress_zero_guard (r g : Option Int)
    (h : g = none ∨ g = some 0 ∨ r = none ∨ r = some 0) :
    formatProgress r g = "0.00%" := by
  rcases r with _ | r'
  · rfl
  · rcases g with _ | g'
    · rfl
    · have hrg : r' = 0 ∨ g' = 0 := by
        rcases h with h | h | h | h
        · exact Option.noConfusion h
        · exact Or.inr (Option.some.inj h)
        · exact Option.noConfusion h
        · exact Or.inl (Option.some.inj h)
      simp only [formatProgress]
      rw [if_pos hrg]

/-- Witness for C2: a nonzero raised amount against a zero goal still
yields `"0.00%"`. -/
theorem formatProgress_zero_guard_witness :
    formatProgress (some 5000000) (some 0) = "0.00%" :=
  formatProgress_zero_guard (some 5000000) (some 0) (Or.inr (Or.inl rfl))

/-- Claim C3: for every non-falsy timestamp and clock value the
relative-time render of `dateFormatter.js` agrees with the claim's
description: the largest applicable unit among days, hours, minutes
(days checked first, then hours, then minutes — minutes rendered even
when zero), pluralized exactly when the count differs from 1, with
`"… left"` wording for a positive difference and `"Ended … ago"`
wording otherwise. -/
theorem formatRelativeTime_refines_cascade (now t : Int) (ht : t ≠ 0) :
    formatRelativeTime now (some t) = claimRelativeTime now t := by
  simp only [formatRelativeTime, claimRelativeTime]
  rw [if_neg ht]
  by_cases hdiff : 0 < t - now <;>
    by_cases hd : 0 < (t - now).natAbs / 86400 <;>
      by_cases hh : 0 < (t - now).natAbs / 3600 <;>
        simp [hdiff, hd, hh]

/-- Witness for C3: a concrete future timestamp two days ahead of the
clock follows the claim's cascade. -/
theorem formatRelativeTime_refines_cascade_witness :
    formatRelativeTime 1000 (some 173800) = claimRelativeTime 1000 173800 :=
  formatRelativeTime_refines_cascade 1000 173800 (by norm_num)

/-- Claim C4: `isExpired` is `false` on falsy timestamps (`null`,
`undefined`, zero) and otherwise holds exactly when the clock strictly
exceeds the timestamp; a timestamp equal to the current second is not
expired. -/
theorem isExpired_strict_comparison (now t : Int) (ht : t ≠ 0) :
    isExpired now none = false ∧ isExpired now (some 0) = false
    ∧ (isExpired now (some t) = true ↔ t < now) := by
  refine ⟨rfl, rfl, ?_⟩
  simp [isExpired, ht]

/-- Witness for C4: at clock 5, the past timestamp 3 is expired and the
falsy timestamps are not. -/
theorem isExpired_strict_comparison_witness :
    isExpired 5 none = false ∧ isExpired 5 (some 0) = false
    ∧ (isExpired 5 (some 3) = true ↔ (3 : Int) < 5) :=
  isExpired_strict_comparison 5 3 (by norm_num)

/-- Claim C5: the literal zero timestamp renders as the epoch date
under `formatDate` and `formatDateTime` (never the placeholder `"—"`),
while `formatRelativeTime` treats it as missing and yields the
placeholder for every clock value. -/
theorem zero_timestamp_asymmetry :
    formatDate (some 0) = "Jan 1, 1970"
    ∧ formatDate (some 0) ≠ "—"
    ∧ formatDateTime (some 0) = "Jan 1, 1970, 12:00 AM"
    ∧ formatDateTime (some 0) ≠ "—"
    ∧ (∀ now : Int, formatRelativeTime now (some 0) = "—") := by
  refine ⟨by decide, by decide, by decide, by decide, fun now => ?_⟩
  simp [formatRelativeTime]

/-- Claim C6: converting a smallest-unit integer to major units and
back multiplies out the `10^7` scale exactly, recovering the original
amount on the whole safe-integer domain where the specification
asserts exact representability. -/
theorem units_roundtrip (a : Nat) (h : a < 2 ^ 53) :
    xlmToStroops (some (stroopsToXLM (some (a : Int)))) = (a : ℚ) := by
  simp only [xlmToStroops, stroopsToXLM, SCALE]
  rw [div_mul_cancel₀ _ (by norm_num : (10 : ℚ) ^ 7 ≠ 0)]
  push_cast
  rfl

/-- Witness for C6: one XLM worth of stroops survives the round trip. -/
theorem units_roundtrip_witness :
    xlmToStroops (some (stroopsToXLM (some ((10000000 : Nat) : Int)))) = ((10000000 : Nat) : ℚ) :=
  units_roundtrip 10000000 (by norm_num)

/-- Claim C7: `formatCompact` renders a major-unit value at or above
one million as `value/1e6` at two decimals with an `M` suffix, a value
at or above one thousand as `value/1e3` at two decimals with a `K`
suffix, any smaller value through `formatCurrency` at two decimals,
and a `null`/`undefined` amount as `"0 XLM"` with no decimal places —
distinct from `formatCurrency`'s `"0.00 XLM"` fallback; the
specification's three example values render accordingly. -/
theorem formatCompact_thresholds :
    formatCompact none = "0 XLM"
    ∧ formatCompact none ≠ formatCurrency none 2 "XLM"
    ∧ (∀ a : Int, (1000000 : ℚ) ≤ stroopsToXLM (some a) →
        formatCompact (some a) = jsToFixed 2 (stroopsToXLM (some a) / 1000000) ++ "M XLM")
    ∧ (∀ a : Int, stroopsToXLM (some a) < 1000000 → (1000 : ℚ) ≤ stroopsToXLM (some a) →
        formatCompact (some a) = jsToFixed 2 (stroopsToXLM (some a) / 1000) ++ "K XLM")
    ∧ (∀ a : Int, stroopsToXLM (some a) < 1000 →
        formatCompact (some a) = formatCurrency (some a) 2 "XLM")
    ∧ formatCompact (some 15000000000000) = "1.50M XLM"
    ∧ formatCompact (some 10000000000) = "1.00K XLM"
    ∧ formatCompact (some 10000000) = "1.00 XLM" := by
  refine ⟨rfl, by decide, ?_, ?_, ?_, ?_, ?_, ?_⟩
  · intro a hge
    simp only [formatCompact]
    rw [if_pos hge, String.append_assoc]
    rfl
  · intro a hlt hge
    simp only [formatCompact]
    rw [if_neg (not_le.mpr hlt), if_pos hge, String.append_assoc]
    rfl
  · intro a hlt
    simp only [formatCompact]
    rw [if_neg (not_le.mpr (hlt.trans (by norm_num))), if_neg (not_le.mpr hlt)]
  · have hge : (1000000 : ℚ) ≤ stroopsToXLM (some 15000000000000) := by
      unfold stroopsToXLM SCALE; norm_num
    have h : roundHalfUp (stroopsToXLM (some 15000000000000) / 1000000 * 10 ^ 2) = 150 := by
      unfold roundHalfUp stroopsToXLM SCALE; norm_num
    simp only [formatCompact]
    rw [if_pos hge]
    simp only [jsToFixed]
    rw [h]
    decide
  · have hlt : ¬ (1000000 : ℚ) ≤ stroopsToXLM (some 10000000000) := by
      unfold stroopsToXLM SCALE; norm_num
    have hge : (1000 : ℚ) ≤ stroopsToXLM (some 10000000000) := by
      unfold stroopsToXLM SCALE; norm_num
    have h : roundHalfUp (stroopsToXLM (some 10000000000) / 1000 * 10 ^ 2) = 100 := by
      unfold roundHalfUp stroopsToXLM SCALE; norm_num
    simp only [formatCompact]
    rw [if_neg hlt, if_pos hge]
    simp only [jsToFixed]
    rw [h]
    decide
  · have hlt : ¬ (1000000 : ℚ) ≤ stroopsToXLM (some 10000000) := by
      unfold stroopsToXLM SCALE; norm_num
    have hlt2 : ¬ (1000 : ℚ) ≤ stroopsToXLM (some 10000000) := by
      unfold stroopsToXLM SCALE; norm_num
    have h : roundHalfUp (stroopsToXLM (some 10000000) * 10 ^ 2) = 100 := by
      unfold roundHalfUp stroopsToXLM SCALE; norm_num
    simp only [formatCompact]
    rw [if_neg hlt, if_neg hlt2]
    simp only [formatCurrency, jsToLocaleFixed]
    rw [h]
    decide

/-- Claim C8: `formatCurrency` of a `null`/`undefined` amount is the
canonical `"0.00 <symbol>"` zero string with the default two decimal
places, whatever the `decimals` argument says. -/
theorem formatCurrency_null_fallback (d : Nat) (s : String) :
    formatCurrency none d s = "0.00 " ++ s := rfl

/-- Claim C9: at the exact deadline second (a non-falsy timestamp equal
to the clock), `formatRelativeTime` already takes the past branch and
reports `"Ended 0 minutes ago"`, while `isExpired`'s strict comparison
still answers `false`. -/
theorem deadline_second_disagreement (now : Int) (h : now ≠ 0) :
    formatRelativeTime now (some now) = "Ended 0 minutes ago"
    ∧ isExpired now (some now) = false := by
  constructor
  · simp only [formatRelativeTime]
    rw [if_neg h]
    simp [sub_self]
    rfl
  · simp [isExpired, h]

/-- Witness for C9: a concrete deadline equal to the clock is reported
as ended but not yet expired. -/
theorem deadline_second_disagreement_witness :
    formatRelativeTime 1700000000 (some 1700000000) = "Ended 0 minutes ago"
    ∧ isExpired 1700000000 (some 1700000000) = false :=
  deadline_second_disagreement 1700000000 (by norm_num)

/-- Claim C10: every negative timestamp passes the falsiness guard of
`formatDate` and `formatDateTime` and is rendered rather than replaced
by the placeholder `"—"`; the concrete renders of `-1` show the
resulting pre-1970 dates. -/
theorem negative_timestamp_renders (t : Int) (ht : t < 0) :
    formatDate (some t) ≠ "—" ∧ formatDateTime (some t) ≠ "—"
    ∧ formatDate (some (-1)) = "Dec 31, 1969"
    ∧ formatDateTime (some (-1)) = "Dec 31, 1969, 11:59 PM" := by
  have hm : ("—" : String).length = 1 := rfl
  refine ⟨?_, ?_, by decide, by decide⟩
  · intro h
    have hl := congrArg String.length h
    have h3 := three_le_length_renderDate t
    have he : formatDate (some t) = renderDate t := rfl
    rw [he] at hl
    omega
  · intro h
    have hl := congrArg String.length h
    have h3 := three_le_length_renderDate t
    have he : formatDateTime (some t) = renderDate t ++ ", " ++ renderTime t := rfl
    rw [he, String.length_append, String.length_append] at hl
    omega

/-- Witness for C10: the timestamp one day before the epoch renders as
a date on both absolute formatters. -/
theorem negative_timestamp_renders_witness :
    formatDate (some (-86400)) ≠ "—" ∧ formatDateTime (some (-86400)) ≠ "—"
    ∧ formatDate (some (-1)) = "Dec 31, 1969"
    ∧ formatDateTime (some (-1)) = "Dec 31, 1969, 11:59 PM" :=
  negative_timestamp_renders (-86400) (by norm_num)

end StellarRaise
